import Mathlib

/-!
Verification of the settings panel (`src/Settings.tsx`) of
snipit-code-manager: the settings record, the three user-action handlers
(`handleChangeCollectionPath`, `handleFolderOpen`, `handleThemeChange`),
the section renderer, and a model of the settings store.

Stateful React code is embedded by explicit state passing: each handler is
a pure function from the current in-memory state and the outcomes of the
host calls it awaits (directory dialog, `saveSettings`, `open_folder`) to
a result recording the new in-memory state, every `saveSettings` call
made, and every toast emitted.
-/

/-- The in-memory settings record: `{ os, firstStartup, collectionPath }`
as in the `useState` type annotation of `Settings.tsx`. -/
structure SettingsRecord where
  os : String
  firstStartup : String
  collectionPath : String
deriving DecidableEq, Repr

/-- A toast notification as passed to ShadCN's `toast`: title, description
and whether the `destructive` (error) variant was requested. -/
structure Toast where
  title : String
  description : String
  destructive : Bool
deriving DecidableEq, Repr

/-- The value resolved by Tauri's `dialog.open({ directory: true })`:
`null` (user cancelled), a single path string, or an array of paths. -/
inductive DialogResult where
  | nullResult : DialogResult
  | single (path : String) : DialogResult
  | multiple (paths : List String) : DialogResult
deriving DecidableEq, Repr

/-- JavaScript truthiness of a dialog result, as tested by
`if (selected && ...)`: `null` is falsy, the empty string is falsy,
every array (even empty) is truthy. -/
def DialogResult.truthy : DialogResult → Bool
  | .nullResult => false
  | .single path => path ≠ ""
  | .multiple _ => true

/-- `typeof selected === "string"`. -/
def DialogResult.isString : DialogResult → Bool
  | .single _ => true
  | _ => false

/-- Result of running a handler: the in-memory settings afterwards
(`setSettings` calls applied), the records passed to `saveSettings`
(in call order, whether or not the call succeeded), and the toasts
emitted (in order). -/
structure HandlerResult where
  settings : Option SettingsRecord
  saved : List SettingsRecord
  toasts : List Toast
deriving DecidableEq, Repr

/-- `handleChangeCollectionPath` from `Settings.tsx`.

`dialogResult` is the outcome of `await dialog.open({ directory: true })`
(`Except.error` when the promise rejects), `saveResult` the outcome of
`await saveSettings(updatedSettings)` for the run in which that call is
reached. The body mirrors the source: inside `try`, the guard
`selected && typeof selected === "string" && settings` gates the
save/set/toast sequence; the `catch` emits the destructive
"Failed to update collection path." toast. -/
def handleChangeCollectionPath (settings : Option SettingsRecord)
    (dialogResult : Except String DialogResult)
    (saveResult : Except String Unit) : HandlerResult :=
  match dialogResult with
  | .error _ =>
      ⟨settings, [], [⟨"Error", "Failed to update collection path.", true⟩]⟩
  | .ok selected =>
      match selected.truthy && selected.isString, selected, settings with
      | true, .single path, some s =>
          let updatedSettings : SettingsRecord := { s with collectionPath := path }
          match saveResult with
          | .ok _ =>
              ⟨some updatedSettings, [updatedSettings],
                [⟨"Collection Updated",
                  "Collection path has been changed successfully.", false⟩]⟩
          | .error _ =>
              ⟨settings, [updatedSettings],
                [⟨"Error", "Failed to update collection path.", true⟩]⟩
      | _, _, _ => ⟨settings, [], []⟩

/-- `handleFolderOpen` from `Settings.tsx`: awaits
`invoke("open_folder", { path })` and toasts success or a destructive
error; it never touches the settings state or calls `saveSettings`,
which the explicit state passing makes visible. -/
def handleFolderOpen (settings : Option SettingsRecord)
    (openResult : Except String Unit) : HandlerResult :=
  match openResult with
  | .ok _ => ⟨settings, [], [⟨"Success", "Folder opened successfully.", false⟩]⟩
  | .error _ => ⟨settings, [], [⟨"Error", "Failed to open folder.", true⟩]⟩

/-- The theme enumeration `"light" | "dark" | "system"`. -/
inductive Theme where
  | light : Theme
  | dark : Theme
  | system : Theme
deriving DecidableEq, Repr

/-- The string form of a theme value, as interpolated into the toast. -/
def Theme.str : Theme → String
  | .light => "light"
  | .dark => "dark"
  | .system => "system"

/-- Result of `handleThemeChange`: the theme handed to `setTheme`
together with the settings state, save calls and toasts. -/
structure ThemeHandlerResult where
  theme : Theme
  settings : Option SettingsRecord
  saved : List SettingsRecord
  toasts : List Toast
deriving DecidableEq, Repr

/-- `handleThemeChange` from `Settings.tsx`: `setTheme(value)` then an
unconditional success toast; no try/catch, no `saveSettings`, no
`setSettings`. -/
def handleThemeChange (value : Theme) (settings : Option SettingsRecord) :
    ThemeHandlerResult :=
  ⟨value, settings, [],
    [⟨"Theme Updated", "Theme has been changed to " ++ value.str ++ ".", false⟩]⟩

/-- The `name` fields of the `settingsOptions` sidebar list. -/
def settingsOptions : List String :=
  ["Themes", "Connections", "Collections", "About", "Test"]

/-- The section `renderSection` renders for a given `activeSection`
value; `none` is the `default: return null` branch. -/
inductive RenderedSection where
  | themes : RenderedSection
  | connections : RenderedSection
  | collections : RenderedSection
  | about : RenderedSection
  | test : RenderedSection
deriving DecidableEq, Repr

/-- `renderSection` from `Settings.tsx`, keeping only which section is
rendered (the JSX content is presentational). -/
def renderSection (activeSection : String) : Option RenderedSection :=
  match activeSection with
  | "Themes" => some .themes
  | "Connections" => some .connections
  | "Collections" => some .collections
  | "About" => some .about
  | "Test" => some .test
  | _ => none

/-- The values `activeSection` can hold: it is initialised by
`useState("Themes")` and only ever written by the sidebar buttons'
`onClick={() => setActiveSection(name)}` with `name` drawn from
`settingsOptions`. -/
inductive ReachableSection : String → Prop where
  | init : ReachableSection "Themes"
  | click (name : String) (h : name ∈ settingsOptions) : ReachableSection name

/-- Errors of the settings store, from the spec's error kinds. -/
inductive StoreError where
  | storageUnavailable : StoreError
  | validationError : StoreError
deriving DecidableEq, Repr

/-- The persistence medium behind `loadSettings`/`saveSettings`:
whether it can be opened, and the persisted record if one exists. -/
structure Store where
  available : Bool
  persisted : Option SettingsRecord
deriving DecidableEq, Repr

/-- Host environment facts used when `load` first creates the record. -/
structure HostEnv where
  os : String
  now : String
  defaultCollectionPath : String
deriving DecidableEq, Repr

/-- Modelled from the spec: `loadSettings` lives in `src/db/db`, which is
not part of the supplied source; the spec says `load()` "returns the
persisted record; if none exists, creates one with `operatingSystem` and
`firstStartupTimestamp` populated from the host environment and
`collectionPath` set to a platform default directory. Fails with
`StorageUnavailable` if the persistence medium cannot be opened." -/
def load (host : HostEnv) (st : Store) :
    Except StoreError (SettingsRecord × Store) :=
  if st.available then
    match st.persisted with
    | some r => .ok (r, st)
    | none =>
        let r : SettingsRecord := ⟨host.os, host.now, host.defaultCollectionPath⟩
        .ok (r, { st with persisted := some r })
  else .error .storageUnavailable

/-- Modelled from the spec: `saveSettings` lives in `src/db/db`, which is
not part of the supplied source; the spec says `save(record)` "overwrites
the persisted record atomically" and "fails with `StorageUnavailable` or
`ValidationError` (e.g., empty `collectionPath`)." -/
def save (r : SettingsRecord) (st : Store) : Except StoreError Store :=
  if ¬ st.available then .error .storageUnavailable
  else if r.collectionPath = "" then .error .validationError
  else .ok { st with persisted := some r }

section Theorems

/-- C1 counterexample: the dialog resolving with the single string `""`
is a run in which the handler, contrary to the claim's universal
quantification over path strings, saves nothing (the JavaScript
truthiness guard `selected &&` rejects the empty string). -/
theorem c1_empty_path_not_saved :
    (handleChangeCollectionPath
        (some ⟨"Linux", "2024-01-01T00:00:00Z", "/home/u/.app/collections"⟩)
        (.ok (.single "")) (.ok ())).saved ≠
      [⟨"Linux", "2024-01-01T00:00:00Z", ""⟩] := by
  decide

/-- C1 (amended to non-empty paths): for every loaded record and every
non-empty path chosen as a single string, the handler saves and stores
exactly the old record with `collectionPath` replaced; `os` and
`firstStartup` are preserved. -/
theorem c1_change_collection_path (s : SettingsRecord) (path : String)
    (hpath : path ≠ "") :
    (handleChangeCollectionPath (some s) (.ok (.single path)) (.ok ())).saved =
        [⟨s.os, s.firstStartup, path⟩] ∧
      (handleChangeCollectionPath (some s) (.ok (.single path)) (.ok ())).settings =
        some ⟨s.os, s.firstStartup, path⟩ := by
  simp [handleChangeCollectionPath, DialogResult.truthy, DialogResult.isString,
    hpath]

/-- C1 witness: the spec's own example, evaluated. -/
theorem c1_change_collection_path_witness :
    ("/home/u/Documents/col2" : String) ≠ "" ∧
      (handleChangeCollectionPath
          (some ⟨"Linux", "2024-01-01T00:00:00Z", "/home/u/.app/collections"⟩)
          (.ok (.single "/home/u/Documents/col2")) (.ok ())).saved =
        [⟨"Linux", "2024-01-01T00:00:00Z", "/home/u/Documents/col2"⟩] ∧
      (handleChangeCollectionPath
          (some ⟨"Linux", "2024-01-01T00:00:00Z", "/home/u/.app/collections"⟩)
          (.ok (.single "/home/u/Documents/col2")) (.ok ())).settings =
        some ⟨"Linux", "2024-01-01T00:00:00Z", "/home/u/Documents/col2"⟩ := by
  refine ⟨by decide, ?_, ?_⟩
  · exact (c1_change_collection_path
      ⟨"Linux", "2024-01-01T00:00:00Z", "/home/u/.app/collections"⟩
      "/home/u/Documents/col2" (by decide)).1
  · exact (c1_change_collection_path
      ⟨"Linux", "2024-01-01T00:00:00Z", "/home/u/.app/collections"⟩
      "/home/u/Documents/col2" (by decide)).2

/-- C2: when `saveSettings` throws, the in-memory settings are left
unchanged (`setSettings` is never reached), the destructive error toast
is the only notification, and the save is attempted exactly once (not
retried). -/
theorem c2_save_failure (s : SettingsRecord) (path : String) (err : String)
    (hpath : path ≠ "") :
    (handleChangeCollectionPath (some s) (.ok (.single path)) (.error err)).settings =
        some s ∧
      (handleChangeCollectionPath (some s) (.ok (.single path)) (.error err)).toasts =
        [⟨"Error", "Failed to update collection path.", true⟩] ∧
      (handleChangeCollectionPath (some s) (.ok (.single path)) (.error err)).saved =
        [⟨s.os, s.firstStartup, path⟩] := by
  simp [handleChangeCollectionPath, DialogResult.truthy, DialogResult.isString,
    hpath]

/-- C2 witness: a concrete failing save. -/
theorem c2_save_failure_witness :
    ("/tmp/col" : String) ≠ "" ∧
      (handleChangeCollectionPath
          (some ⟨"Linux", "2024-01-01T00:00:00Z", "/home/u/.app/collections"⟩)
          (.ok (.single "/tmp/col")) (.error "StorageUnavailable")).settings =
        some ⟨"Linux", "2024-01-01T00:00:00Z", "/home/u/.app/collections"⟩ := by
  exact ⟨by decide,
    (c2_save_failure ⟨"Linux", "2024-01-01T00:00:00Z", "/home/u/.app/collections"⟩
      "/tmp/col" "StorageUnavailable" (by decide)).1⟩

/-- C3: when the dialog resolves with `null` (the user cancelled), the
handler performs no save and leaves the in-memory settings unchanged,
whatever the settings state and whatever a save would have returned. -/
theorem c3_cancel_no_change (settings : Option SettingsRecord)
    (saveResult : Except String Unit) :
    handleChangeCollectionPath settings (.ok .nullResult) saveResult =
      ⟨settings, [], []⟩ := by
  simp [handleChangeCollectionPath, DialogResult.truthy]

/-- C4: every failure of the host `open_folder` invocation leaves the
settings record untouched, performs no save, and is surfaced as the
destructive "Failed to open folder." toast instead of propagating. -/
theorem c4_open_folder_failure (settings : Option SettingsRecord) (err : String) :
    handleFolderOpen settings (.error err) =
      ⟨settings, [], [⟨"Error", "Failed to open folder.", true⟩]⟩ := by
  simp [handleFolderOpen]

/-- C5: round-trip idempotence of the store: if `load` succeeds with
record `r`, then (provided the platform default path is non-empty and
any previously persisted record passed validation) `save r` succeeds and
a subsequent `load` returns a record equal to `r`. -/
theorem c5_save_load_roundtrip (host : HostEnv) (st : Store)
    (r : SettingsRecord) (st1 : Store)
    (hdefault : host.defaultCollectionPath ≠ "")
    (hvalid : ∀ p, st.persisted = some p → p.collectionPath ≠ "")
    (hload : load host st = .ok (r, st1)) :
    ∃ st2, save r st1 = .ok st2 ∧ load host st2 = .ok (r, st2) := by
  by_cases hav : st.available
  · cases hp : st.persisted with
    | some p =>
        simp [load, hav, hp] at hload
        obtain ⟨hr, hst1⟩ := hload
        refine ⟨{ st with persisted := some r }, ?_, ?_⟩
        · simp [save, ← hst1, hav, ← hr, hvalid p hp]
        · simp [load, hav]
    | none =>
        simp [load, hav, hp] at hload
        obtain ⟨hr, hst1⟩ := hload
        refine ⟨{ st with persisted := some r }, ?_, ?_⟩
        · simp [save, ← hst1, hav, ← hr, hdefault]
        · simp [load, hav]
  · simp [load, hav] at hload

/-- C5 witness: a fresh, available store round-trips the default
record. -/
theorem c5_save_load_roundtrip_witness :
    (("/home/u/.app/collections" : String) ≠ "" ∧
        (∀ p, (Store.mk true none).persisted = some p → p.collectionPath ≠ "") ∧
        load ⟨"Linux", "2024-01-01T00:00:00Z", "/home/u/.app/collections"⟩
            (Store.mk true none) =
          .ok (⟨"Linux", "2024-01-01T00:00:00Z", "/home/u/.app/collections"⟩,
            Store.mk true
              (some ⟨"Linux", "2024-01-01T00:00:00Z", "/home/u/.app/collections"⟩))) ∧
      ∃ st2,
        save ⟨"Linux", "2024-01-01T00:00:00Z", "/home/u/.app/collections"⟩
            (Store.mk true
              (some ⟨"Linux", "2024-01-01T00:00:00Z", "/home/u/.app/collections"⟩)) =
          .ok st2 ∧
        load ⟨"Linux", "2024-01-01T00:00:00Z", "/home/u/.app/collections"⟩ st2 =
          .ok (⟨"Linux", "2024-01-01T00:00:00Z", "/home/u/.app/collections"⟩, st2) := by
  refine ⟨⟨by decide, by simp, by rfl⟩, ?_⟩
  exact c5_save_load_roundtrip
    ⟨"Linux", "2024-01-01T00:00:00Z", "/home/u/.app/collections"⟩
    (Store.mk true none)
    ⟨"Linux", "2024-01-01T00:00:00Z", "/home/u/.app/collections"⟩
    (Store.mk true
      (some ⟨"Linux", "2024-01-01T00:00:00Z", "/home/u/.app/collections"⟩))
    (by decide) (by simp) (by rfl)

/-- C6: for every theme value, the handler hands exactly that value to
`setTheme` and emits the success toast; the `Theme` type is exhausted by
`light`, `dark` and `system`, so no value outside the enumeration is
accepted. -/
theorem c6_theme_change (value : Theme) (settings : Option SettingsRecord) :
    (handleThemeChange value settings).theme = value ∧
      (handleThemeChange value settings).toasts =
        [⟨"Theme Updated", "Theme has been changed to " ++ value.str ++ ".", false⟩] ∧
      (value = .light ∨ value = .dark ∨ value = .system) := by
  refine ⟨rfl, rfl, ?_⟩
  cases value <;> simp

/-- C9: changing the theme never calls `saveSettings`, leaves the
in-memory settings record exactly as it was, and emits the one
non-destructive success toast unconditionally. -/
theorem c9_theme_change_frame (value : Theme) (settings : Option SettingsRecord) :
    (handleThemeChange value settings).saved = [] ∧
      (handleThemeChange value settings).settings = settings ∧
      (handleThemeChange value settings).toasts =
        [⟨"Theme Updated", "Theme has been changed to " ++ value.str ++ ".", false⟩] := by
  exact ⟨rfl, rfl, rfl⟩

/-- C8: with the settings not yet loaded, or with the dialog resolving
to an array of paths, the handler saves nothing, changes no state, and
emits no toast at all. -/
theorem c8_guard_no_effect :
    (∀ (selected : DialogResult) (saveResult : Except String Unit),
        handleChangeCollectionPath none (.ok selected) saveResult =
          ⟨none, [], []⟩) ∧
      ∀ (settings : Option SettingsRecord) (paths : List String)
        (saveResult : Except String Unit),
        handleChangeCollectionPath settings (.ok (.multiple paths)) saveResult =
          ⟨settings, [], []⟩ := by
  constructor
  · intro selected saveResult
    cases selected <;>
      simp [handleChangeCollectionPath, DialogResult.truthy, DialogResult.isString]
  · intro settings paths saveResult
    simp [handleChangeCollectionPath, DialogResult.truthy, DialogResult.isString]

/-- C10: every value `activeSection` can reach (initial `"Themes"` or a
sidebar option name) renders to a real section: `renderSection`'s
`default` (null) branch is unreachable. -/
theorem c10_render_section_total (s : String) (h : ReachableSection s) :
    (renderSection s).isSome = true := by
  cases h with
  | init => decide
  | click name hmem =>
      simp [settingsOptions] at hmem
      rcases hmem with h | h | h | h | h <;> subst h <;> decide

/-- C10 witness: the initial section renders. -/
theorem c10_render_section_total_witness :
    (renderSection "Themes").isSome = true :=
  c10_render_section_total "Themes" ReachableSection.init

end Theorems
